import Mathlib

/-!
Verification of the DoubleML data backend and estimation-engine contracts.

The data container (`double_ml_data.py`) is embedded shallowly below:
pandas data frames become association lists from column names to integer
columns, Python values crossing the validated boundary become the `PyObj`
universe, and Python exceptions become the `PyError` sum returned through
`Except`.  Components of the repository that are exercised only through
tests (the PLR/PQ estimators and `set_sample_splitting`) are modelled from
the specification; each such definition says so in its doc comment.
-/

deriving instance DecidableEq for Except

/-- A Python exception, as observed by callers: the constructor is the
exception class and the payload its message.  A bare `assert` statement
raises `AssertionError` with no message, hence the message-free
constructor. -/
inductive PyError where
  | typeError (msg : String)
  | valueError (msg : String)
  | assertionError
  | indexError (msg : String)
  | notImplementedError (msg : String)
deriving Repr, DecidableEq

/-- The message text carried by an exception; a bare `assert` carries none. -/
def PyError.message : PyError → String
  | .typeError m => m
  | .valueError m => m
  | .assertionError => ""
  | .indexError m => m
  | .notImplementedError m => m

/-- A dynamically typed Python value arriving at a validation boundary:
the cases the validators in the source distinguish (`str`, `list`, `int`,
`float`, `bool`, `None`).  Floats are modelled as rationals. -/
inductive PyObj where
  | pyStr (s : String)
  | pyList (l : List String)
  | pyInt (n : Int)
  | pyFloat (q : Rat)
  | pyBool (b : Bool)
  | pyNone
deriving Repr, DecidableEq

/-- Python `repr(type(v))`, as interpolated into error messages. -/
def PyObj.typeName : PyObj → String
  | .pyStr _ => "<class \x27str\x27>"
  | .pyList _ => "<class \x27list\x27>"
  | .pyInt _ => "<class \x27int\x27>"
  | .pyFloat _ => "<class \x27float\x27>"
  | .pyBool _ => "<class \x27bool\x27>"
  | .pyNone => "<class \x27NoneType\x27>"

/-- A pandas data frame, column-oriented: an ordered list of named columns
of integer cells (cell values only flow through slicing, so their numeric
type is irrelevant to the claims). -/
structure DataFrame where
  cols : List (String × List Int)
deriving Repr, DecidableEq

/-- `data.columns`. -/
def DataFrame.columns (df : DataFrame) : List String := df.cols.map Prod.fst

/-- `data.loc[:, c]` for a single label: the first column named `c`
(every use in the source is guarded by a membership assertion, so the
default for a missing label is never reached there). -/
def DataFrame.getCol (df : DataFrame) (c : String) : List Int :=
  match df.cols.find? (fun p => p.1 == c) with
  | some p => p.2
  | none => []

/-- `data.loc[:, cs]` for a list of labels: the sub-frame with those
columns, in the requested order. -/
def DataFrame.select (df : DataFrame) (cs : List String) : DataFrame :=
  ⟨cs.map (fun c => (c, df.getCol c))⟩

/-- `data.shape[0]`: the common length of the columns (pandas frames are
rectangular; we read it off the first column). -/
def DataFrame.nRows (df : DataFrame) : Nat :=
  match df.cols with
  | [] => 0
  | p :: _ => p.2.length

/-- The `x_cols` property setter of `DoubleMLData`: a `str` is wrapped in
a singleton list, any other non-list raises
`TypeError("x_cols must be a list")`, and a bare `assert` checks that
every name is a column of the data. -/
def x_cols_check (columns : List String) (v : PyObj) : Except PyError (List String) :=
  match v with
  | .pyStr s => if columns.contains s then .ok [s] else .error .assertionError
  | .pyList l => if l.all (fun c => columns.contains c) then .ok l else .error .assertionError
  | .pyInt _ => .error (.typeError "x_cols must be a list")
  | .pyFloat _ => .error (.typeError "x_cols must be a list")
  | .pyBool _ => .error (.typeError "x_cols must be a list")
  | .pyNone => .error (.typeError "x_cols must be a list")

/-- The `d_cols` property setter: same shape as `x_cols`, with message
`TypeError("d_cols must be a list")`. -/
def d_cols_check (columns : List String) (v : PyObj) : Except PyError (List String) :=
  match v with
  | .pyStr s => if columns.contains s then .ok [s] else .error .assertionError
  | .pyList l => if l.all (fun c => columns.contains c) then .ok l else .error .assertionError
  | .pyInt _ => .error (.typeError "d_cols must be a list")
  | .pyFloat _ => .error (.typeError "d_cols must be a list")
  | .pyBool _ => .error (.typeError "d_cols must be a list")
  | .pyNone => .error (.typeError "d_cols must be a list")

/-- The `z_cols` property setter: `None` is stored as-is; otherwise as for
`x_cols`/`d_cols` with message `TypeError("z_cols must be a list")`. -/
def z_cols_check (columns : List String) (v : PyObj) :
    Except PyError (Option (List String)) :=
  match v with
  | .pyNone => .ok none
  | .pyStr s => if columns.contains s then .ok (some [s]) else .error .assertionError
  | .pyList l =>
      if l.all (fun c => columns.contains c) then .ok (some l) else .error .assertionError
  | .pyInt _ => .error (.typeError "z_cols must be a list")
  | .pyFloat _ => .error (.typeError "z_cols must be a list")
  | .pyBool _ => .error (.typeError "z_cols must be a list")

/-- The `y_col` property setter: `assert isinstance(value, str)` followed
by `assert value in self.all_variables` — both bare asserts. -/
def y_col_check (columns : List String) (v : PyObj) : Except PyError String :=
  match v with
  | .pyStr s => if columns.contains s then .ok s else .error .assertionError
  | .pyList _ => .error .assertionError
  | .pyInt _ => .error .assertionError
  | .pyFloat _ => .error .assertionError
  | .pyBool _ => .error .assertionError
  | .pyNone => .error .assertionError

/-- Python `set(s)` for a string `s`: the set of its characters, here as
the list of one-character strings.  (`__init__` computes `set(self.y_col)`
on the outcome *name*, so this character-splitting is load-bearing.) -/
def strCharSet (s : String) : List String := s.data.map (fun c => String.mk [c])

/-- The default-covariate computation in `__init__` when `x_cols is None`:
all columns of the data whose name is not in
`set(y_col) ∪ set(d_cols) [∪ set(z_cols)]`, in data-frame column order.
Note `set(y_col)` is the set of characters of the outcome name. -/
def default_x_cols (df : DataFrame) (y_col : String) (d_cols : List String)
    (z_cols : Option (List String)) : List String :=
  match z_cols with
  | some z =>
      let y_d_z := strCharSet y_col ++ d_cols ++ z
      df.columns.filter (fun c => !(y_d_z.contains c))
  | none =>
      let y_d := strCharSet y_col ++ d_cols
      df.columns.filter (fun c => !(y_d.contains c))

/-- The column list sliced into `self._X` by `_set_x_d`:
`x_cols + d_cols` with the first occurrence of the selected treatment
removed (Python `list.remove`) when other treatments serve as covariates,
else `x_cols` alone. -/
def xd_list_of (x_cols d_cols : List String) (use_other : Bool) (t : String) :
    List String :=
  if use_other then (x_cols ++ d_cols).erase t else x_cols

/-- `DoubleMLData._set_x_d(treatment_var)`: asserts the selected treatment
is a declared treatment, then stores the treatment column and the
covariate sub-frame. -/
def set_x_d_slices (df : DataFrame) (x_cols d_cols : List String) (use_other : Bool)
    (t : String) : Except PyError (List Int × DataFrame) :=
  if d_cols.contains t then
    .ok (df.getCol t, df.select (xd_list_of x_cols d_cols use_other t))
  else .error .assertionError

/-- The state of a constructed `DoubleMLData` object.  The `_y`, `_z`,
`_d`, `_X` fields are the slices stored by `_set_y_z` / `_set_x_d`; they
are snapshots, not recomputed when a column-role field is reassigned,
exactly as in the source. -/
structure DoubleMLData where
  data : DataFrame
  y_col : String
  d_cols : List String
  x_cols : List String
  z_cols : Option (List String)
  use_other_treat_as_covariate : Bool
  _y : List Int
  _z : Option DataFrame
  _d : List Int
  _X : DataFrame
deriving Repr, DecidableEq

/-- The `x_cols` branch of `__init__`: an explicit value goes through the
`x_cols` setter, `None` selects the default covariate list. -/
def x_cols_resolve (df : DataFrame) (y_col : String) (d_cols : List String)
    (z_cols : Option (List String)) (x_v : PyObj) : Except PyError (List String) :=
  match x_v with
  | .pyNone => pure (default_x_cols df y_col d_cols z_cols)
  | v => x_cols_check df.columns v

/-- `self.d_cols[0]`: the first treatment variable; Python raises
`IndexError` on an empty list. -/
def d_first (d_cols : List String) : Except PyError String :=
  match d_cols with
  | [] => .error (.indexError "list index out of range")
  | c :: _ => pure c

/-- `DoubleMLData.__init__`: runs the `y_col`, `d_cols`, `z_cols` setters,
computes `x_cols` (explicit value through its setter, else the default),
then `_set_y_z` and `_set_x_d(d_cols[0])`.  An empty treatment list makes
`d_cols[0]` raise `IndexError`.  The `_y`/`_z` slices of `_set_y_z` are
written directly into the record (they are pure slices, so storing them
at the end is observationally the same as the source order). -/
def DoubleMLData.init (data : DataFrame) (y_v d_v x_v z_v : PyObj)
    (use_other_treat_as_covariate : Bool) : Except PyError DoubleMLData := do
  let y_col ← y_col_check data.columns y_v
  let d_cols ← d_cols_check data.columns d_v
  let z_cols ← z_cols_check data.columns z_v
  let x_cols ← x_cols_resolve data y_col d_cols z_cols x_v
  let t ← d_first d_cols
  let sd ← set_x_d_slices data x_cols d_cols use_other_treat_as_covariate t
  pure { data := data, y_col := y_col, d_cols := d_cols, x_cols := x_cols,
         z_cols := z_cols,
         use_other_treat_as_covariate := use_other_treat_as_covariate,
         _y := data.getCol y_col, _z := z_cols.map (fun zc => data.select zc),
         _d := sd.1, _X := sd.2 }

/-- The `x` property: `self._X.values` (columns of the stored slice). -/
def DoubleMLData.x (o : DoubleMLData) : List (List Int) := o._X.cols.map Prod.snd

/-- The `y` property: `self._y.values`. -/
def DoubleMLData.y (o : DoubleMLData) : List Int := o._y

/-- The `d` property: `self._d.values`. -/
def DoubleMLData.d (o : DoubleMLData) : List Int := o._d

/-- The `z` property: `self._z.values` when instruments are declared,
else `None`. -/
def DoubleMLData.z (o : DoubleMLData) : Option (List (List Int)) :=
  match o.z_cols with
  | some _ => (o._z.map (fun df => df.cols.map Prod.snd))
  | none => none

/-- The `all_variables` property. -/
def DoubleMLData.all_variables (o : DoubleMLData) : List String := o.data.columns

/-- The `n_treat` property. -/
def DoubleMLData.n_treat (o : DoubleMLData) : Nat := o.d_cols.length

/-- The `n_instr` property: `len(self.z_cols)` — when `z_cols` is `None`
this is Python `len(None)`, a `TypeError`. -/
def DoubleMLData.n_instr (o : DoubleMLData) : Except PyError Nat :=
  match o.z_cols with
  | some l => .ok l.length
  | none => .error (.typeError "object of type \x27NoneType\x27 has no len()")

/-- The `n_obs` property: `self.data.shape[0]`. -/
def DoubleMLData.n_obs (o : DoubleMLData) : Nat := o.data.nRows

/-- Assignment `obj.x_cols = v`: revalidates and stores the list; it does
not refresh the stored `_X` slice (the source setter only sets
`self._x_cols`). -/
def DoubleMLData.set_x_cols (o : DoubleMLData) (v : PyObj) :
    Except PyError DoubleMLData := do
  let l ← x_cols_check o.data.columns v
  pure { o with x_cols := l }

/-- Assignment `obj.d_cols = v`. -/
def DoubleMLData.set_d_cols (o : DoubleMLData) (v : PyObj) :
    Except PyError DoubleMLData := do
  let l ← d_cols_check o.data.columns v
  pure { o with d_cols := l }

/-- Assignment `obj.y_col = v`. -/
def DoubleMLData.set_y_col (o : DoubleMLData) (v : PyObj) :
    Except PyError DoubleMLData := do
  let s ← y_col_check o.data.columns v
  pure { o with y_col := s }

/-- Assignment `obj.z_cols = v`. -/
def DoubleMLData.set_z_cols (o : DoubleMLData) (v : PyObj) :
    Except PyError DoubleMLData := do
  let l ← z_cols_check o.data.columns v
  pure { o with z_cols := l }

/-- `DoubleMLData.from_arrays(X, y, d, z)`: generates column names
(`X1..Xp`; `y`; `d` or `d1..dk`; `z` or `z1..`), column-stacks the arrays
into a frame in the order `X, y, d[, z]`, and calls the constructor with
the explicit column lists.  Arrays are given column-wise; `assure_2d_array`
(whose source is not in the sampled files) reshapes a 1-D input into one
column, so a 2-D input of columns is passed through unchanged. -/
def DoubleMLData.from_arrays (X : List (List Int)) (y : List Int)
    (d : List (List Int)) (z : Option (List (List Int)))
    (use_other_treat_as_covariate : Bool) : Except PyError DoubleMLData :=
  let y_col := "y"
  let d_cols : List String :=
    if d.length == 1 then ["d"]
    else (List.range d.length).map (fun i => "d" ++ Nat.repr (i + 1))
  let x_cols : List String :=
    (List.range X.length).map (fun i => "X" ++ Nat.repr (i + 1))
  match z with
  | none =>
      let data : DataFrame := ⟨(x_cols.zip X) ++ [(y_col, y)] ++ (d_cols.zip d)⟩
      DoubleMLData.init data (.pyStr y_col) (.pyList d_cols) (.pyList x_cols)
        .pyNone use_other_treat_as_covariate
  | some zc =>
      let z_cols : List String :=
        if zc.length == 1 then ["z"]
        else (List.range zc.length).map (fun i => "z" ++ Nat.repr (i + 1))
      let data : DataFrame :=
        ⟨(x_cols.zip X) ++ [(y_col, y)] ++ (d_cols.zip d) ++ (z_cols.zip zc)⟩
      DoubleMLData.init data (.pyStr y_col) (.pyList d_cols) (.pyList x_cols)
        (.pyList z_cols) use_other_treat_as_covariate

/-- Whether a Python value is a `str` (`isinstance(v, str)`). -/
def PyObj.isStr : PyObj → Bool
  | .pyStr _ => true
  | _ => false

/-- Whether a Python value is a `list` (`isinstance(v, list)`). -/
def PyObj.isList : PyObj → Bool
  | .pyList _ => true
  | _ => false

/-- Whether a Python value is an `int`. -/
def PyObj.isInt : PyObj → Bool
  | .pyInt _ => true
  | _ => false

/-- Whether a Python value is a `float`. -/
def PyObj.isFloat : PyObj → Bool
  | .pyFloat _ => true
  | _ => false

/-- Whether a Python value is a `bool`. -/
def PyObj.isBool : PyObj → Bool
  | .pyBool _ => true
  | _ => false

/-- Whether a Python value is `None`. -/
def PyObj.isNone : PyObj → Bool
  | .pyNone => true
  | _ => false

/-- Modelled from the spec: the configuration state of a `DoubleMLPQ`
(potential-quantile) model after successful construction.  The estimator
class itself is not among the sampled sources; only its tests are, so the
validated parameters are taken from §7(a) of the spec and the expected
messages of `test_doubleml_pq_exceptions`. -/
structure DoubleMLPQ where
  quantile : Rat
  treatment : Int
  h : Rat
  normalize : Bool
deriving Repr, DecidableEq

/-- Modelled from the spec: `DoubleMLPQ.__init__`.  Clustered data is an
unimplemented combination and is rejected first (the base-class
initialisation runs before the parameter checks); then each configuration
parameter is validated eagerly, before any fitting: quantile a float in
the open interval (0,1), treatment indicator an integer in {0,1},
bandwidth a positive float, normalization indicator a boolean. -/
def DoubleMLPQ.init (clusterData : Bool) (quantile treatment h normalize : PyObj) :
    Except PyError DoubleMLPQ :=
  if clusterData then
    .error (.notImplementedError "Estimation with clustering not implemented.")
  else
    match quantile with
    | .pyFloat q =>
      if q ≤ 0 ∨ 1 ≤ q then
        .error (.valueError ("Quantile has be between 0 or 1. Quantile " ++
          toString q ++ " passed."))
      else
        match treatment with
        | .pyInt t =>
          if t ≠ 0 ∧ t ≠ 1 then
            .error (.valueError ("Treatment indicator has be either 0 or 1. " ++
              "Treatment indicator " ++ toString t ++ " passed."))
          else
            match h with
            | .pyFloat bw =>
              if bw ≤ 0 then
                .error (.valueError ("Bandwidth has be positive. Bandwidth " ++
                  toString bw ++ " passed."))
              else
                match normalize with
                | .pyBool b => .ok ⟨q, t, bw, b⟩
                | v => .error (.typeError ("Normalization indicator has to be boolean. " ++
                    "Object of type " ++ v.typeName ++ " passed."))
            | v => .error (.typeError ("Bandwidth has to be a float. Object of type " ++
                v.typeName ++ " passed."))
        | v => .error (.typeError ("Treatment indicator has to be an integer. " ++
            "Object of type " ++ v.typeName ++ " passed."))
    | v => .error (.typeError ("Quantile has to be a float. Object of type " ++
        v.typeName ++ " passed."))

/-- Modelled from the spec: `DoubleMLPQ.tune` — hyperparameter tuning is
an unimplemented combination for potential quantiles and always raises
the named `NotImplementedError`, for every model and parameter grid. -/
def DoubleMLPQ.tune (_m : DoubleMLPQ) (_grid : List (String × List Nat)) :
    Except PyError (List Nat) :=
  .error (.notImplementedError "Nuisance tuning not implemented for potential quantiles.")

/-- Pairwise disjointness of the test-index sets of the folds, as a
boolean check. -/
def testsDisjoint : List (List Nat) → Bool
  | [] => true
  | s :: rest => (rest.all (fun t => s.all (fun i => !(t.contains i)))) && testsDisjoint rest

/-- Modelled from the spec: the partition-completeness check run by
`set_sample_splitting` on one repetition — the test index sets are
pairwise disjoint and their union is exactly {0,...,n-1}. -/
def repPartitionOk (n : Nat) (rep : List (List Nat × List Nat)) : Bool :=
  let tests := rep.map Prod.snd
  testsDisjoint tests && tests.flatten.all (fun i => i < n) &&
    (List.range n).all (fun i => tests.flatten.contains i)

/-- Modelled from the spec: `set_sample_splitting` — externally supplied
fold partitions are validated repetition by repetition before use, and a
violating sequence fails with a structural-validation error before any
fitting occurs. -/
def set_sample_splitting (n : Nat) (all_smpls : List (List (List Nat × List Nat))) :
    Except PyError (List (List (List Nat × List Nat))) :=
  if all_smpls.all (repPartitionOk n) then .ok all_smpls
  else .error (.valueError
    "Invalid partition provided. Tuples for train_ind and test_ind must form a partition.")

/-- The partition-completeness invariant of §3 of the spec, as a
proposition: test sets pairwise disjoint, every test index in range, and
every index of {0,...,n-1} covered (so the union is the full index set). -/
def PartitionInvariant (n : Nat) (rep : List (List Nat × List Nat)) : Prop :=
  (rep.map Prod.snd).Pairwise (fun s t => ∀ i ∈ s, i ∉ t) ∧
    (∀ i ∈ (rep.map Prod.snd).flatten, i < n) ∧
    (∀ i, i < n → i ∈ (rep.map Prod.snd).flatten)

/-- The PLR orthogonal-score variants appearing in the tests. -/
inductive PLRScore where
  | scoreIV
  | scorePO
deriving Repr, DecidableEq

/-- The two aggregation procedures of §4.4 of the spec. -/
inductive DMLProc where
  | dml1
  | dml2
deriving Repr, DecidableEq

/-- Configuration of a PLR estimation run. -/
structure PLRConfig where
  score : PLRScore
  dml_procedure : DMLProc
  n_folds : Nat
  n_rep : Nat

/-- The observed data as seen by the PLR engine: outcome and treatment
values per observation index. -/
structure PLRDataset where
  n : Nat
  yv : Nat → Rat
  dv : Nat → Rat

/-- Mean of a list of rationals (zero on the empty list, as 0/0 = 0). -/
def mean (l : List Rat) : Rat := l.sum / (l.length : Rat)

/-- Modelled from the spec: the linear-in-theta decomposition
psi = psi_a * theta + psi_b at one observation, for the two PLR score
variants (partialling out and IV-type), from out-of-fold nuisance
predictions g (outcome regression) and m (treatment regression). -/
def psi_ab (sc : PLRScore) (ds : PLRDataset) (g m : Nat → Rat) (i : Nat) : Rat × Rat :=
  let vhat := ds.dv i - m i
  match sc with
  | .scorePO => (-(vhat * vhat), vhat * (ds.yv i - g i))
  | .scoreIV => (-(ds.dv i * vhat), vhat * (ds.yv i - g i))

/-- numpy-style median: middle element of the sorted list (mean of the
two middle elements for even length). -/
def listMedian (l : List Rat) : Rat :=
  let s := l.mergeSort (fun a b => a ≤ b)
  if l.length % 2 == 1 then s.getD (l.length / 2) 0
  else (s.getD (l.length / 2 - 1) 0 + s.getD (l.length / 2) 0) / 2

/-- Modelled from the spec (§4.4): one repetition of the engine — build
the per-fold scores from the out-of-fold nuisance predictions supplied by
the (deterministic) fitter, solve the moment equation per procedure
(dml1: solve per fold and average; dml2: pool then solve), and compute
the sandwich variance scaled by 1/n.  Returns (theta_r, sigma_r^2). -/
def repEstimate (fitter : List Nat → List Nat → (Nat → Rat) × (Nat → Rat))
    (ds : PLRDataset) (cfg : PLRConfig) (rep : List (List Nat × List Nat)) :
    Rat × Rat :=
  let foldPsis : List (List (Rat × Rat)) :=
    rep.map (fun p =>
      let gm := fitter p.1 p.2
      p.2.map (psi_ab cfg.score ds gm.1 gm.2))
  let allPsi := foldPsis.flatten
  let psiA := allPsi.map Prod.fst
  let psiB := allPsi.map Prod.snd
  let theta :=
    match cfg.dml_procedure with
    | .dml2 => -(mean psiB) / (mean psiA)
    | .dml1 => mean (foldPsis.map (fun f =>
        -(mean (f.map Prod.snd)) / (mean (f.map Prod.fst))))
  let sigma2 := (mean (allPsi.map (fun p => (p.1 * theta + p.2) ^ 2))) / ((mean psiA) ^ 2)
  (theta, sigma2 / (ds.n : Rat))

/-- The result object of a PLR estimation: point estimate, squared
standard error (se is its square root, determined by it), and the
realized fold partitions (`smpls`). -/
structure PLRResult where
  coef : Rat
  se2 : Rat
  smpls : List (List (List Nat × List Nat))

/-- Modelled from the spec (§4.4–4.5): fit on a given sequence of fold
partitions — one (theta_r, sigma_r^2) per repetition, aggregated by
median of the coefficients and median of (sigma_r^2 + (theta_r -
theta_hat)^2).  This is `fit` after `set_sample_splitting`
(`draw_sample_splitting=False`). -/
def plr_fit_with_smpls (fitter : List Nat → List Nat → (Nat → Rat) × (Nat → Rat))
    (ds : PLRDataset) (cfg : PLRConfig)
    (smpls : List (List (List Nat × List Nat))) : PLRResult :=
  let reps := smpls.map (repEstimate fitter ds cfg)
  let thetas := reps.map Prod.fst
  let coef := listMedian thetas
  let se2 := listMedian (reps.map (fun p => p.2 + (p.1 - coef) ^ 2))
  ⟨coef, se2, smpls⟩

/-- Modelled from the spec (§4.1): a deterministic seeded sample splitter
producing `n_rep` K-fold partitions of {0,...,n-1} (test sets are residue
classes shifted by seed and repetition; train sets their complements). -/
def draw_splits (seed n_rep n_folds n : Nat) : List (List (List Nat × List Nat)) :=
  (List.range n_rep).map (fun r =>
    (List.range n_folds).map (fun k =>
      ((List.range n).filter (fun i => (i + seed + r) % n_folds != k),
       (List.range n).filter (fun i => (i + seed + r) % n_folds == k))))

/-- Modelled from the spec: `fit` with internally drawn splits
(`draw_sample_splitting=True`): draw the partitions from the seeded
splitter, then estimate exactly as `plr_fit_with_smpls`; the realized
partitions are exposed on the result as `smpls`. -/
def plr_fit_internal (fitter : List Nat → List Nat → (Nat → Rat) × (Nat → Rat))
    (ds : PLRDataset) (cfg : PLRConfig) (seed : Nat) : PLRResult :=
  plr_fit_with_smpls fitter ds cfg (draw_splits seed cfg.n_rep cfg.n_folds ds.n)

/-- A small concrete data frame (columns `y`, `d`) used as a fixture by
the witnesses. -/
def dfYD : DataFrame := ⟨[("y", [1]), ("d", [2])]⟩

/-- The `DoubleMLData` constructed from `dfYD` with outcome `y` and
treatment `d`, used as a fixture by the witnesses. -/
def objYD : DoubleMLData :=
  { data := dfYD, y_col := "y", d_cols := ["d"], x_cols := [], z_cols := none,
    use_other_treat_as_covariate := true, _y := [1], _z := none, _d := [2],
    _X := ⟨[]⟩ }

/-- Numeric value of a decimal digit character. -/
def digitVal (c : Char) : Nat := c.toNat - 48

/-- Decimal parse of a character list (left fold); left inverse of
`Nat.repr` on its output, used to show generated column names such as
`X1..Xp` are pairwise distinct. -/
def parseNatList (l : List Char) : Nat :=
  l.foldl (fun a c => 10 * a + digitVal c) 0

/-! ### Theorems -/

/-- C2 (failing input): constructing `DoubleMLData` with `x_cols=None` on
a frame with columns `yy, d, x1`, outcome `yy` and treatment `d` yields
`x_cols = [yy, x1]`: the outcome column itself is kept as a covariate,
because `__init__` computes `set(self.y_col)` — the set of *characters*
of the outcome name — instead of the singleton set of the name.  The
class docstring promises that all columns that are neither the outcome,
nor treatments, nor instruments become covariates, i.e. `x_cols = [x1]`
here. -/
theorem default_x_cols_char_bug :
    (DoubleMLData.init ⟨[("yy", [1]), ("d", [2]), ("x1", [3])]⟩ (.pyStr "yy")
      (.pyList ["d"]) .pyNone .pyNone true).map (fun o => o.x_cols) =
      .ok ["yy", "x1"] := by decide

/-- C1 (counterexample): a specification in which the outcome column is
also declared as the treatment column is accepted by construction — the
validators check only types and column membership, never disjointness of
the role column sets. -/
theorem overlapping_roles_accepted :
    (DoubleMLData.init ⟨[("y", [1]), ("d", [2])]⟩ (.pyStr "y") (.pyList ["y"])
      .pyNone .pyNone true).map (fun o => (o.y_col, o.d_cols)) =
      .ok ("y", ["y"]) := by decide

/-- C7 (counterexample): on a `DoubleMLData` without declared instrument
columns, `n_instr` does not return zero — it evaluates `len(None)` and
raises `TypeError`. -/
theorem n_instr_raises_when_no_instruments :
    (DoubleMLData.init ⟨[("y", [1]), ("d", [2])]⟩ (.pyStr "y") (.pyList ["d"])
      .pyNone .pyNone true).map (fun o => o.n_instr) =
      .ok (.error (.typeError "object of type \x27NoneType\x27 has no len()")) := by
  decide

/-- C8 (counterexample): assigning `x_cols` a list naming a column absent
from the data raises a bare `AssertionError` carrying no message at all,
so the error message does not identify the offending parameter. -/
theorem missing_column_error_has_no_message :
    x_cols_check ["y", "d"] (.pyList ["nope"]) = .error .assertionError ∧
      PyError.message .assertionError = "" := ⟨rfl, rfl⟩

/-- C3: fitting the PLR engine with internally drawn splits and then
fitting a second engine with `draw_sample_splitting=False` and the
realized `smpls` of the first supplied via `set_sample_splitting` yields
identical coefficient and (squared) standard error, for every
deterministic nuisance fitter, dataset, configuration (score, procedure,
`n_folds`, `n_rep`) and seed. -/
theorem plr_explicit_split_reuse
    (fitter : List Nat → List Nat → (Nat → Rat) × (Nat → Rat))
    (ds : PLRDataset) (cfg : PLRConfig) (seed : Nat) :
    (plr_fit_with_smpls fitter ds cfg
        (plr_fit_internal fitter ds cfg seed).smpls).coef =
      (plr_fit_internal fitter ds cfg seed).coef ∧
    (plr_fit_with_smpls fitter ds cfg
        (plr_fit_internal fitter ds cfg seed).smpls).se2 =
      (plr_fit_internal fitter ds cfg seed).se2 :=
  ⟨rfl, rfl⟩

/-- C5: the two requested-but-unsupported combinations fail with their
explicit, named `NotImplementedError`s and never fall back silently:
`tune` on any potential-quantile model, with any parameter grid, raises
the tuning error; and constructing a `DoubleMLPQ` on data with declared
cluster variables raises the clustering error whatever the remaining
arguments are. -/
theorem pq_unimplemented_named_errors :
    (∀ (m : DoubleMLPQ) (grid : List (String × List Nat)),
        m.tune grid = .error (.notImplementedError
          "Nuisance tuning not implemented for potential quantiles.")) ∧
      (∀ q t bw nz : PyObj,
        DoubleMLPQ.init true q t bw nz = .error (.notImplementedError
          "Estimation with clustering not implemented.")) :=
  ⟨fun _ _ => rfl, fun _ _ _ _ => rfl⟩

/-- The boolean pairwise-disjointness check decides the `Pairwise`
disjointness proposition. -/
theorem testsDisjoint_iff (l : List (List Nat)) :
    testsDisjoint l = true ↔ l.Pairwise (fun s t => ∀ i ∈ s, i ∉ t) := by
  induction l with
  | nil => simp [testsDisjoint]
  | cons s rest ih =>
      simp only [testsDisjoint, List.pairwise_cons, ih, List.all_eq_true,
        Bool.and_eq_true, Bool.not_eq_true', ← Bool.not_eq_true]
      constructor
      · rintro ⟨h1, h2⟩
        exact ⟨fun t ht i hi => by simpa using h1 t ht i hi, h2⟩
      · rintro ⟨h1, h2⟩
        exact ⟨fun t ht i hi => by simpa using h1 t ht i hi, h2⟩

/-- The boolean repetition check decides the partition-completeness
invariant. -/
theorem repPartitionOk_iff (n : Nat) (rep : List (List Nat × List Nat)) :
    repPartitionOk n rep = true ↔ PartitionInvariant n rep := by
  unfold repPartitionOk PartitionInvariant
  simp [List.all_eq_true, testsDisjoint_iff, List.mem_range]
  tauto

/-- C9: `set_sample_splitting` accepts an externally supplied sequence of
fold-partition repetitions exactly when every repetition satisfies the
partition-completeness invariant (test sets pairwise disjoint, union the
full index set {0,...,n-1}); any violating sequence fails with a
structural-validation error instead of being used. -/
theorem set_sample_splitting_validates (n : Nat)
    (all_smpls : List (List (List Nat × List Nat))) :
    set_sample_splitting n all_smpls = .ok all_smpls ↔
      ∀ rep ∈ all_smpls, PartitionInvariant n rep := by
  unfold set_sample_splitting
  constructor
  · intro h
    by_cases hc : all_smpls.all (repPartitionOk n) = true
    · intro rep hrep
      exact (repPartitionOk_iff n rep).1 (List.all_eq_true.1 hc rep hrep)
    · simp [hc] at h
  · intro h
    have hc : all_smpls.all (repPartitionOk n) = true :=
      List.all_eq_true.2 (fun rep hrep => (repPartitionOk_iff n rep).2 (h rep hrep))
    simp [hc]

/-- Inversion for a successful bind in the `Except` monad. -/
theorem except_bind_ok {α β : Type} {ε : Type} {e : Except ε α} {f : α → Except ε β}
    {b : β} (h : (e >>= f) = .ok b) : ∃ a, e = .ok a ∧ f a = .ok b := by
  cases e with
  | error err => simp [Bind.bind, Except.bind] at h
  | ok a => exact ⟨a, rfl, by simpa [Bind.bind, Except.bind] using h⟩

/-- Inversion of a successful `DoubleMLData.__init__`: the validated
roles, and the constructed object expressed through them.  `t` is the
first declared treatment, the one `_set_x_d` is called with. -/
theorem init_ok_inversion {df : DataFrame} {y_v d_v x_v z_v : PyObj} {u : Bool}
    {o : DoubleMLData} (h : DoubleMLData.init df y_v d_v x_v z_v u = .ok o) :
    ∃ (ycol t : String) (rest : List String) (zcols : Option (List String))
      (xcols : List String),
      y_col_check df.columns y_v = .ok ycol ∧
      d_cols_check df.columns d_v = .ok (t :: rest) ∧
      z_cols_check df.columns z_v = .ok zcols ∧
      ((x_v = .pyNone ∧ xcols = default_x_cols df ycol (t :: rest) zcols) ∨
        x_cols_check df.columns x_v = .ok xcols) ∧
      o =
        { data := df, y_col := ycol, d_cols := (t :: rest), x_cols := xcols,
          z_cols := zcols, use_other_treat_as_covariate := u,
          _y := df.getCol ycol, _z := zcols.map (fun zc => df.select zc),
          _d := df.getCol t,
          _X := df.select (xd_list_of xcols (t :: rest) u t) } := by
  unfold DoubleMLData.init at h
  obtain ⟨ycol, hy, h⟩ := except_bind_ok h
  obtain ⟨dcols, hd, h⟩ := except_bind_ok h
  obtain ⟨zcols, hz, h⟩ := except_bind_ok h
  obtain ⟨xcols, hx, h⟩ := except_bind_ok h
  obtain ⟨t, ht, h⟩ := except_bind_ok h
  obtain ⟨sd, hsd, h⟩ := except_bind_ok h
  cases dcols with
  | nil => simp [d_first] at ht
  | cons c rest =>
    have htc : t = c := by simpa [d_first, pure, Except.pure] using ht.symm
    subst htc
    have hcon : (t :: rest).contains t = true := by simp
    rw [set_x_d_slices, if_pos hcon] at hsd
    have hsd' : sd = (df.getCol t, df.select (xd_list_of xcols (t :: rest) u t)) := by
      simpa using hsd.symm
    subst hsd'
    have ho : o =
        { data := df, y_col := ycol, d_cols := (t :: rest), x_cols := xcols,
          z_cols := zcols, use_other_treat_as_covariate := u,
          _y := df.getCol ycol, _z := zcols.map (fun zc => df.select zc),
          _d := df.getCol t,
          _X := df.select (xd_list_of xcols (t :: rest) u t) } := by
      simpa [pure, Except.pure] using h.symm
    have hx' : (x_v = .pyNone ∧ xcols = default_x_cols df ycol (t :: rest) zcols) ∨
        x_cols_check df.columns x_v = .ok xcols := by
      cases x_v with
      | pyNone =>
          exact Or.inl ⟨rfl, by simpa [x_cols_resolve, pure, Except.pure] using hx.symm⟩
      | pyStr s => exact Or.inr hx
      | pyList l => exact Or.inr hx
      | pyInt n => exact Or.inr hx
      | pyFloat q => exact Or.inr hx
      | pyBool b => exact Or.inr hx
    exact ⟨ycol, t, rest, zcols, xcols, hy, hd, hz, hx', ho⟩

/-- A successful `y_col` setter returns a declared column. -/
theorem y_col_check_ok_mem {cols : List String} {v : PyObj} {s : String}
    (h : y_col_check cols v = .ok s) : s ∈ cols := by
  cases v with
  | pyStr s0 =>
      by_cases hc : cols.contains s0 = true
      · simp only [y_col_check, hc, if_true, Except.ok.injEq] at h
        subst h; simpa using hc
      · have hc2 : s0 ∉ cols := by simpa using hc
        simp [y_col_check, hc2] at h
  | pyList l => simp [y_col_check] at h
  | pyInt n => simp [y_col_check] at h
  | pyFloat q => simp [y_col_check] at h
  | pyBool b => simp [y_col_check] at h
  | pyNone => simp [y_col_check] at h

/-- A successful `x_cols` setter returns declared columns only. -/
theorem x_cols_check_ok_subset {cols : List String} {v : PyObj} {l : List String}
    (h : x_cols_check cols v = .ok l) : ∀ c ∈ l, c ∈ cols := by
  cases v with
  | pyStr s0 =>
      by_cases hc : cols.contains s0 = true
      · simp only [x_cols_check, hc, if_true, Except.ok.injEq] at h
        subst h; intro c hc'; simp at hc'; subst hc'; simpa using hc
      · have hc2 : s0 ∉ cols := by simpa using hc
        simp [x_cols_check, hc2] at h
  | pyList l0 =>
      by_cases hc : l0.all (fun c => cols.contains c) = true
      · simp only [x_cols_check, hc, if_true, Except.ok.injEq] at h
        subst h
        intro c hc'
        have := List.all_eq_true.1 hc c hc'
        simpa using this
      · have hc2 : ¬ (∀ x ∈ l0, x ∈ cols) := by simpa [List.all_eq_true] using hc
        simp [x_cols_check, hc2] at h
  | pyInt n => simp [x_cols_check] at h
  | pyFloat q => simp [x_cols_check] at h
  | pyBool b => simp [x_cols_check] at h
  | pyNone => simp [x_cols_check] at h

/-- A successful `d_cols` setter returns declared columns only. -/
theorem d_cols_check_ok_subset {cols : List String} {v : PyObj} {l : List String}
    (h : d_cols_check cols v = .ok l) : ∀ c ∈ l, c ∈ cols := by
  cases v with
  | pyStr s0 =>
      by_cases hc : cols.contains s0 = true
      · simp only [d_cols_check, hc, if_true, Except.ok.injEq] at h
        subst h; intro c hc'; simp at hc'; subst hc'; simpa using hc
      · have hc2 : s0 ∉ cols := by simpa using hc
        simp [d_cols_check, hc2] at h
  | pyList l0 =>
      by_cases hc : l0.all (fun c => cols.contains c) = true
      · simp only [d_cols_check, hc, if_true, Except.ok.injEq] at h
        subst h
        intro c hc'
        have := List.all_eq_true.1 hc c hc'
        simpa using this
      · have hc2 : ¬ (∀ x ∈ l0, x ∈ cols) := by simpa [List.all_eq_true] using hc
        simp [d_cols_check, hc2] at h
  | pyInt n => simp [d_cols_check] at h
  | pyFloat q => simp [d_cols_check] at h
  | pyBool b => simp [d_cols_check] at h
  | pyNone => simp [d_cols_check] at h

/-- A successful `z_cols` setter returns declared columns only (or
`None`). -/
theorem z_cols_check_ok_subset {cols : List String} {v : PyObj}
    {zl : Option (List String)} (h : z_cols_check cols v = .ok zl) :
    ∀ l, zl = some l → ∀ c ∈ l, c ∈ cols := by
  cases v with
  | pyStr s0 =>
      by_cases hc : cols.contains s0 = true
      · simp only [z_cols_check, hc, if_true, Except.ok.injEq] at h
        subst h
        intro l hl c hc'
        cases hl; simp at hc'; subst hc'; simpa using hc
      · have hc2 : s0 ∉ cols := by simpa using hc
        simp [z_cols_check, hc2] at h
  | pyList l0 =>
      by_cases hc : l0.all (fun c => cols.contains c) = true
      · simp only [z_cols_check, hc, if_true, Except.ok.injEq] at h
        subst h
        intro l hl c hc'
        cases hl
        have := List.all_eq_true.1 hc c hc'
        simpa using this
      · have hc2 : ¬ (∀ x ∈ l0, x ∈ cols) := by simpa [List.all_eq_true] using hc
        simp [z_cols_check, hc2] at h
  | pyNone =>
      simp only [z_cols_check, Except.ok.injEq] at h
      subst h
      intro l hl; cases hl
  | pyInt n => simp [z_cols_check] at h
  | pyFloat q => simp [z_cols_check] at h
  | pyBool b => simp [z_cols_check] at h

/-- The default covariate list is a sublist of the data columns. -/
theorem default_x_cols_subset (df : DataFrame) (ycol : String)
    (dcols : List String) (zcols : Option (List String)) :
    ∀ c ∈ default_x_cols df ycol dcols zcols, c ∈ df.columns := by
  intro c hc
  unfold default_x_cols at hc
  cases zcols with
  | some z => exact List.mem_of_mem_filter hc
  | none => exact List.mem_of_mem_filter hc

/-- Column names of a sub-frame slice are the requested labels. -/
theorem select_columns (df : DataFrame) (cs : List String) :
    (df.select cs).columns = cs := by
  induction cs with
  | nil => rfl
  | cons c cs ih => simp_all [DataFrame.select, DataFrame.columns]

/-- C1 (amended): construction validates the column roles for type and
membership only — every successfully constructed `DoubleMLData` has its
outcome, treatment, covariate and instrument columns drawn from the
columns of the data — but pairwise disjointness of the role column sets
is never checked, and overlapping specifications are accepted. -/
theorem roles_membership_validated_only {df : DataFrame} {y_v d_v x_v z_v : PyObj}
    {u : Bool} {o : DoubleMLData}
    (h : DoubleMLData.init df y_v d_v x_v z_v u = .ok o) :
    o.y_col ∈ df.columns ∧ (∀ c ∈ o.d_cols, c ∈ df.columns) ∧
      (∀ c ∈ o.x_cols, c ∈ df.columns) ∧
      (∀ l, o.z_cols = some l → ∀ c ∈ l, c ∈ df.columns) := by
  obtain ⟨ycol, t, rest, zcols, xcols, hy, hd, hz, hx, ho⟩ := init_ok_inversion h
  subst ho
  refine ⟨y_col_check_ok_mem hy, d_cols_check_ok_subset hd, ?_,
    z_cols_check_ok_subset hz⟩
  rcases hx with ⟨_, hdef⟩ | hxc
  · subst hdef; exact default_x_cols_subset df ycol (t :: rest) zcols
  · exact x_cols_check_ok_subset hxc

/-- C1 (witness): the membership theorem applied to a concrete
construction. -/
theorem roles_membership_validated_only_w :
    "y" ∈ (⟨[("y", [1]), ("d", [2])]⟩ : DataFrame).columns ∧
      (∀ c ∈ ["d"], c ∈ (⟨[("y", [1]), ("d", [2])]⟩ : DataFrame).columns) ∧
      (∀ c ∈ ([] : List String), c ∈ (⟨[("y", [1]), ("d", [2])]⟩ : DataFrame).columns) ∧
      (∀ l, (none : Option (List String)) = some l →
        ∀ c ∈ l, c ∈ (⟨[("y", [1]), ("d", [2])]⟩ : DataFrame).columns) :=
  @roles_membership_validated_only ⟨[("y", [1]), ("d", [2])]⟩ (.pyStr "y")
    (.pyList ["d"]) .pyNone .pyNone true
    { data := ⟨[("y", [1]), ("d", [2])]⟩, y_col := "y", d_cols := ["d"],
      x_cols := [], z_cols := none, use_other_treat_as_covariate := true,
      _y := [1], _z := none, _d := [2], _X := ⟨[]⟩ } (by decide)

/-- C7 (amended): for every successfully constructed `DoubleMLData`, when
instrument columns are declared the `z` accessor returns their n-by-n_instr
value matrix and `n_instr` their count; when none are declared `z` returns
`None` and `n_instr` raises `TypeError` (Python `len(None)`) instead of
returning zero. -/
theorem z_n_instr_characterization {df : DataFrame} {y_v d_v x_v z_v : PyObj}
    {u : Bool} {o : DoubleMLData}
    (h : DoubleMLData.init df y_v d_v x_v z_v u = .ok o) :
    (∀ l, o.z_cols = some l →
        o.n_instr = .ok l.length ∧
        o.z = some ((df.select l).cols.map Prod.snd)) ∧
      (o.z_cols = none →
        o.n_instr = .error (.typeError "object of type \x27NoneType\x27 has no len()") ∧
        o.z = none) := by
  obtain ⟨ycol, t, rest, zcols, xcols, hy, hd, hz, hx, ho⟩ := init_ok_inversion h
  subst ho
  constructor
  · intro l hl
    cases zcols with
    | none => cases hl
    | some l0 => cases hl; exact ⟨rfl, rfl⟩
  · intro hl
    cases zcols with
    | some l0 => cases hl
    | none => exact ⟨rfl, rfl⟩

/-- C7 (witness): the accessor characterization applied to a concrete
construction with one instrument column. -/
theorem z_n_instr_characterization_w :
    (∀ l, (some ["z"] : Option (List String)) = some l →
        DoubleMLData.n_instr
          { data := ⟨[("y", [1]), ("d", [2]), ("z", [3])]⟩, y_col := "y",
            d_cols := ["d"], x_cols := [], z_cols := some ["z"],
            use_other_treat_as_covariate := true, _y := [1],
            _z := some ⟨[("z", [3])]⟩, _d := [2], _X := ⟨[]⟩ } = .ok l.length ∧
        DoubleMLData.z
          { data := ⟨[("y", [1]), ("d", [2]), ("z", [3])]⟩, y_col := "y",
            d_cols := ["d"], x_cols := [], z_cols := some ["z"],
            use_other_treat_as_covariate := true, _y := [1],
            _z := some ⟨[("z", [3])]⟩, _d := [2], _X := ⟨[]⟩ } =
          some (((⟨[("y", [1]), ("d", [2]), ("z", [3])]⟩ : DataFrame).select l).cols.map
            Prod.snd)) ∧
      ((some ["z"] : Option (List String)) = none →
        DoubleMLData.n_instr
          { data := ⟨[("y", [1]), ("d", [2]), ("z", [3])]⟩, y_col := "y",
            d_cols := ["d"], x_cols := [], z_cols := some ["z"],
            use_other_treat_as_covariate := true, _y := [1],
            _z := some ⟨[("z", [3])]⟩, _d := [2], _X := ⟨[]⟩ } =
          .error (.typeError "object of type \x27NoneType\x27 has no len()") ∧
        DoubleMLData.z
          { data := ⟨[("y", [1]), ("d", [2]), ("z", [3])]⟩, y_col := "y",
            d_cols := ["d"], x_cols := [], z_cols := some ["z"],
            use_other_treat_as_covariate := true, _y := [1],
            _z := some ⟨[("z", [3])]⟩, _d := [2], _X := ⟨[]⟩ } = none) :=
  @z_n_instr_characterization ⟨[("y", [1]), ("d", [2]), ("z", [3])]⟩ (.pyStr "y")
    (.pyList ["d"]) .pyNone (.pyList ["z"]) true
    { data := ⟨[("y", [1]), ("d", [2]), ("z", [3])]⟩, y_col := "y",
      d_cols := ["d"], x_cols := [], z_cols := some ["z"],
      use_other_treat_as_covariate := true, _y := [1],
      _z := some ⟨[("z", [3])]⟩, _d := [2], _X := ⟨[]⟩ } (by decide)

/-- C4 (counterexample): when the currently selected treatment (the first
declared treatment) also appears among the explicit covariates — a
configuration accepted by validation — the covariate slice still contains
the selected treatment column: `list.remove` deletes only the first
occurrence of `t` in `x_cols + d_cols`. -/
theorem x_slice_contains_selected_treatment :
    (DoubleMLData.init ⟨[("y", [1]), ("d", [2]), ("w", [3])]⟩ (.pyStr "y")
      (.pyList ["d", "w"]) (.pyList ["d"]) .pyNone true).map
      (fun o => match o.d_cols.head? with
        | some t => decide (t ∈ o._X.columns)
        | none => false) = .ok true := by decide

/-- C4 (amended): provided the selected treatment `t = d_cols[0]` does not
itself occur among the covariate columns and occurs only once among the
treatment columns, the stored covariate slice is exactly `x_cols` plus the
other treatments `d_cols[1:]` (in that order) when
`use_other_treat_as_covariate` is set — and then never contains `t` — and
exactly `x_cols` otherwise; in both cases the stored treatment slice is
the column `t`. -/
theorem x_d_slice_characterization {df : DataFrame} {y_v d_v x_v z_v : PyObj}
    {u : Bool} {o : DoubleMLData} {t : String}
    (h : DoubleMLData.init df y_v d_v x_v z_v u = .ok o)
    (hdc : o.d_cols.head? = some t) (htx : t ∉ o.x_cols)
    (htr : t ∉ o.d_cols.tail) :
    o._d = df.getCol t ∧
      (u = true → o._X = df.select (o.x_cols ++ o.d_cols.tail) ∧
        t ∉ o._X.columns) ∧
      (u = false → o._X = df.select o.x_cols) := by
  obtain ⟨ycol, t0, rest0, zcols, xcols, hy, hd, hz, hx, ho⟩ := init_ok_inversion h
  subst ho
  have h2 : t0 = t := Option.some.inj hdc
  rw [← h2] at htx htr ⊢
  refine ⟨rfl, ?_, ?_⟩
  · intro hu
    subst hu
    have herase : xd_list_of xcols (t0 :: rest0) true t0 = xcols ++ rest0 := by
      unfold xd_list_of
      rw [if_pos rfl, List.erase_append_right _ htx, List.erase_cons_head]
    constructor
    · show df.select (xd_list_of xcols (t0 :: rest0) true t0) = _
      rw [herase]; rfl
    · show t0 ∉ (df.select (xd_list_of xcols (t0 :: rest0) true t0)).columns
      rw [herase, select_columns]
      simp only [List.mem_append]
      rintro (hc | hc)
      · exact htx hc
      · exact htr hc
  · intro hu
    subst hu
    rfl

/-- C4 (witness): the slice characterization applied to a concrete
two-treatment construction with explicit covariates. -/
theorem x_d_slice_characterization_w :
    DoubleMLData._d
        { data := ⟨[("y", [1]), ("d", [2]), ("w", [3]), ("v", [4])]⟩, y_col := "y",
          d_cols := ["d", "w"], x_cols := ["v"], z_cols := none,
          use_other_treat_as_covariate := true, _y := [1], _z := none, _d := [2],
          _X := ⟨[("v", [4]), ("w", [3])]⟩ } =
      (⟨[("y", [1]), ("d", [2]), ("w", [3]), ("v", [4])]⟩ : DataFrame).getCol "d" ∧
      (true = true →
        DoubleMLData._X
            { data := ⟨[("y", [1]), ("d", [2]), ("w", [3]), ("v", [4])]⟩, y_col := "y",
              d_cols := ["d", "w"], x_cols := ["v"], z_cols := none,
              use_other_treat_as_covariate := true, _y := [1], _z := none, _d := [2],
              _X := ⟨[("v", [4]), ("w", [3])]⟩ } =
          (⟨[("y", [1]), ("d", [2]), ("w", [3]), ("v", [4])]⟩ : DataFrame).select
            (["v"] ++ ["w"]) ∧
        "d" ∉ (DoubleMLData._X
            { data := ⟨[("y", [1]), ("d", [2]), ("w", [3]), ("v", [4])]⟩, y_col := "y",
              d_cols := ["d", "w"], x_cols := ["v"], z_cols := none,
              use_other_treat_as_covariate := true, _y := [1], _z := none, _d := [2],
              _X := ⟨[("v", [4]), ("w", [3])]⟩ }).columns) ∧
      (true = false →
        DoubleMLData._X
            { data := ⟨[("y", [1]), ("d", [2]), ("w", [3]), ("v", [4])]⟩, y_col := "y",
              d_cols := ["d", "w"], x_cols := ["v"], z_cols := none,
              use_other_treat_as_covariate := true, _y := [1], _z := none, _d := [2],
              _X := ⟨[("v", [4]), ("w", [3])]⟩ } =
          (⟨[("y", [1]), ("d", [2]), ("w", [3]), ("v", [4])]⟩ : DataFrame).select ["v"]) :=
  @x_d_slice_characterization ⟨[("y", [1]), ("d", [2]), ("w", [3]), ("v", [4])]⟩
    (.pyStr "y") (.pyList ["d", "w"]) (.pyList ["v"]) .pyNone true
    { data := ⟨[("y", [1]), ("d", [2]), ("w", [3]), ("v", [4])]⟩, y_col := "y",
      d_cols := ["d", "w"], x_cols := ["v"], z_cols := none,
      use_other_treat_as_covariate := true, _y := [1], _z := none, _d := [2],
      _X := ⟨[("v", [4]), ("w", [3])]⟩ } "d" (by decide) (by decide)
    (by decide) (by decide)

/-- If one requested name is not a column of the data, the setter
subset-check computes `false`. -/
theorem list_all_contains_false {cols l : List String} {c : String}
    (hc : c ∈ l) (hn : c ∉ cols) :
    l.all (fun x => cols.contains x) = false := by
  cases h : l.all (fun x => cols.contains x) with
  | false => rfl
  | true => exact absurd (by simpa using List.all_eq_true.1 h c hc) hn

/-- `contains` computes `false` on a non-member. -/
theorem contains_false_of_not_mem {cols : List String} {s : String}
    (h : s ∉ cols) : cols.contains s = false := by
  cases hc : cols.contains s with
  | false => rfl
  | true => exact absurd (by simpa using hc) h

/-- C8 (amended): every invalid role assignment aborts with an error, but
only the wrong-type errors for `x_cols`/`d_cols`/`z_cols` carry a message
identifying the offending parameter: a value that is neither a string nor
a list raises `TypeError("<param> must be a list")`, while a value naming
a column absent from the data — and a non-string `y_col` — raises a bare
`AssertionError` with no message at all. -/
theorem setters_error_characterization :
    (∀ (o : DoubleMLData) (v : PyObj), v.isStr = false → v.isList = false →
        o.set_x_cols v = .error (.typeError "x_cols must be a list") ∧
        o.set_d_cols v = .error (.typeError "d_cols must be a list") ∧
        (v.isNone = false →
          o.set_z_cols v = .error (.typeError "z_cols must be a list"))) ∧
      (∀ (o : DoubleMLData) (l : List String) (c : String),
        c ∈ l → c ∉ o.data.columns →
        o.set_x_cols (.pyList l) = .error .assertionError ∧
        o.set_d_cols (.pyList l) = .error .assertionError ∧
        o.set_z_cols (.pyList l) = .error .assertionError) ∧
      (∀ (o : DoubleMLData) (s : String), s ∉ o.data.columns →
        o.set_x_cols (.pyStr s) = .error .assertionError ∧
        o.set_d_cols (.pyStr s) = .error .assertionError ∧
        o.set_z_cols (.pyStr s) = .error .assertionError ∧
        o.set_y_col (.pyStr s) = .error .assertionError) ∧
      (∀ (o : DoubleMLData) (v : PyObj), v.isStr = false →
        o.set_y_col v = .error .assertionError) := by
  refine ⟨?_, ?_, ?_, ?_⟩
  · intro o v h1 h2
    cases v with
    | pyStr s => simp [PyObj.isStr] at h1
    | pyList l => simp [PyObj.isList] at h2
    | pyInt n => exact ⟨rfl, rfl, fun _ => rfl⟩
    | pyFloat q => exact ⟨rfl, rfl, fun _ => rfl⟩
    | pyBool b => exact ⟨rfl, rfl, fun _ => rfl⟩
    | pyNone => exact ⟨rfl, rfl, fun h3 => by simp [PyObj.isNone] at h3⟩
  · intro o l c hc hn
    have hnall : ¬ (∀ x ∈ l, x ∈ o.data.columns) := fun hope => hn (hope c hc)
    refine ⟨?_, ?_, ?_⟩
    · simp [DoubleMLData.set_x_cols, x_cols_check, hnall, Bind.bind, Except.bind]
    · simp [DoubleMLData.set_d_cols, d_cols_check, hnall, Bind.bind, Except.bind]
    · simp [DoubleMLData.set_z_cols, z_cols_check, hnall, Bind.bind, Except.bind]
  · intro o s hn
    refine ⟨?_, ?_, ?_, ?_⟩
    · simp [DoubleMLData.set_x_cols, x_cols_check, hn, Bind.bind, Except.bind]
    · simp [DoubleMLData.set_d_cols, d_cols_check, hn, Bind.bind, Except.bind]
    · simp [DoubleMLData.set_z_cols, z_cols_check, hn, Bind.bind, Except.bind]
    · simp [DoubleMLData.set_y_col, y_col_check, hn, Bind.bind, Except.bind]
  · intro o v h1
    cases v with
    | pyStr s => simp [PyObj.isStr] at h1
    | pyList l => exact rfl
    | pyInt n => exact rfl
    | pyFloat q => exact rfl
    | pyBool b => exact rfl
    | pyNone => exact rfl

/-- C8 (witness): the setter-error characterization applied to concrete
invalid assignments on a concrete object. -/
theorem setters_error_characterization_w :
    (objYD.set_x_cols (.pyInt 5) = .error (.typeError "x_cols must be a list") ∧
      objYD.set_d_cols (.pyInt 5) = .error (.typeError "d_cols must be a list") ∧
      ((PyObj.pyInt 5).isNone = false →
        objYD.set_z_cols (.pyInt 5) = .error (.typeError "z_cols must be a list"))) ∧
      (objYD.set_x_cols (.pyList ["nope"]) = .error .assertionError ∧
        objYD.set_d_cols (.pyList ["nope"]) = .error .assertionError ∧
        objYD.set_z_cols (.pyList ["nope"]) = .error .assertionError) ∧
      (objYD.set_x_cols (.pyStr "nope") = .error .assertionError ∧
        objYD.set_d_cols (.pyStr "nope") = .error .assertionError ∧
        objYD.set_z_cols (.pyStr "nope") = .error .assertionError ∧
        objYD.set_y_col (.pyStr "nope") = .error .assertionError) ∧
      (objYD.set_y_col (.pyFloat 1) = .error .assertionError) :=
  ⟨setters_error_characterization.1 objYD (.pyInt 5) rfl rfl,
    setters_error_characterization.2.1 objYD ["nope"] "nope" (by decide) (by decide),
    setters_error_characterization.2.2.1 objYD "nope" (by decide),
    setters_error_characterization.2.2.2 objYD (.pyFloat 1) rfl⟩

/-- C6: `DoubleMLPQ` validates its configuration eagerly at construction,
before any fitting, each failure carrying a message identifying the
offending parameter: non-float quantile (TypeError), quantile outside the
open interval (0,1) (ValueError), non-integer treatment indicator
(TypeError), treatment indicator other than 0/1 (ValueError), non-float
bandwidth (TypeError), non-positive bandwidth (ValueError), non-boolean
normalization indicator (TypeError). -/
theorem pq_eager_param_validation :
    (∀ v t bw nz : PyObj, v.isFloat = false →
        DoubleMLPQ.init false v t bw nz = .error (.typeError
          ("Quantile has to be a float. Object of type " ++ v.typeName ++
            " passed."))) ∧
      (∀ (q : Rat) (t bw nz : PyObj), q ≤ 0 ∨ 1 ≤ q →
        DoubleMLPQ.init false (.pyFloat q) t bw nz = .error (.valueError
          ("Quantile has be between 0 or 1. Quantile " ++ toString q ++
            " passed."))) ∧
      (∀ (q : Rat) (v bw nz : PyObj), 0 < q → q < 1 → v.isInt = false →
        DoubleMLPQ.init false (.pyFloat q) v bw nz = .error (.typeError
          ("Treatment indicator has to be an integer. " ++ "Object of type " ++
            v.typeName ++ " passed."))) ∧
      (∀ (q : Rat) (t : Int) (bw nz : PyObj), 0 < q → q < 1 → t ≠ 0 → t ≠ 1 →
        DoubleMLPQ.init false (.pyFloat q) (.pyInt t) bw nz = .error (.valueError
          ("Treatment indicator has be either 0 or 1. " ++ "Treatment indicator " ++
            toString t ++ " passed."))) ∧
      (∀ (q : Rat) (t : Int) (v nz : PyObj), 0 < q → q < 1 → (t = 0 ∨ t = 1) →
        v.isFloat = false →
        DoubleMLPQ.init false (.pyFloat q) (.pyInt t) v nz = .error (.typeError
          ("Bandwidth has to be a float. Object of type " ++ v.typeName ++
            " passed."))) ∧
      (∀ (q : Rat) (t : Int) (bw : Rat) (nz : PyObj), 0 < q → q < 1 →
        (t = 0 ∨ t = 1) → bw ≤ 0 →
        DoubleMLPQ.init false (.pyFloat q) (.pyInt t) (.pyFloat bw) nz =
          .error (.valueError
            ("Bandwidth has be positive. Bandwidth " ++ toString bw ++
              " passed."))) ∧
      (∀ (q : Rat) (t : Int) (bw : Rat) (v : PyObj), 0 < q → q < 1 →
        (t = 0 ∨ t = 1) → 0 < bw → v.isBool = false →
        DoubleMLPQ.init false (.pyFloat q) (.pyInt t) (.pyFloat bw) v =
          .error (.typeError
            ("Normalization indicator has to be boolean. " ++ "Object of type " ++
              v.typeName ++ " passed."))) := by
  have hqcond : ∀ q : Rat, 0 < q → q < 1 → ¬(q ≤ 0 ∨ 1 ≤ q) := by
    intro q h0 h1
    exact not_or.mpr ⟨not_le.mpr h0, not_le.mpr h1⟩
  have htcond : ∀ t : Int, (t = 0 ∨ t = 1) → ¬(t ≠ 0 ∧ t ≠ 1) := by
    rintro t (rfl | rfl) ⟨h0, h1⟩
    · exact h0 rfl
    · exact h1 rfl
  refine ⟨?_, ?_, ?_, ?_, ?_, ?_, ?_⟩
  · intro v t bw nz hv
    cases v with
    | pyFloat q => simp [PyObj.isFloat] at hv
    | pyStr s => rfl
    | pyList l => rfl
    | pyInt n => rfl
    | pyBool b => rfl
    | pyNone => rfl
  · intro q t bw nz hq
    simp only [DoubleMLPQ.init]
    rw [if_neg Bool.false_ne_true]
    rw [if_pos hq]
  · intro q v bw nz h0 h1 hv
    simp only [DoubleMLPQ.init]
    rw [if_neg Bool.false_ne_true]
    rw [if_neg (hqcond q h0 h1)]
    cases v with
    | pyInt n => simp [PyObj.isInt] at hv
    | pyStr s => rfl
    | pyList l => rfl
    | pyFloat p => rfl
    | pyBool b => rfl
    | pyNone => rfl
  · intro q t bw nz h0 h1 ht0 ht1
    simp only [DoubleMLPQ.init]
    rw [if_neg Bool.false_ne_true]
    rw [if_neg (hqcond q h0 h1), if_pos ⟨ht0, ht1⟩]
  · intro q t v nz h0 h1 ht hv
    simp only [DoubleMLPQ.init]
    rw [if_neg Bool.false_ne_true]
    rw [if_neg (hqcond q h0 h1), if_neg (htcond t ht)]
    cases v with
    | pyFloat p => simp [PyObj.isFloat] at hv
    | pyStr s => rfl
    | pyList l => rfl
    | pyInt n => rfl
    | pyBool b => rfl
    | pyNone => rfl
  · intro q t bw nz h0 h1 ht hbw
    simp only [DoubleMLPQ.init]
    rw [if_neg Bool.false_ne_true]
    rw [if_neg (hqcond q h0 h1), if_neg (htcond t ht), if_pos hbw]
  · intro q t bw v h0 h1 ht hbw hv
    simp only [DoubleMLPQ.init]
    rw [if_neg Bool.false_ne_true]
    rw [if_neg (hqcond q h0 h1), if_neg (htcond t ht), if_neg (not_le.mpr hbw)]
    cases v with
    | pyBool b => simp [PyObj.isBool] at hv
    | pyStr s => rfl
    | pyList l => rfl
    | pyInt n => rfl
    | pyFloat p => rfl
    | pyNone => rfl

/-- C6 (witness): each validation clause applied at the concrete failing
parameter from the test suite. -/
theorem pq_eager_param_validation_w :
    DoubleMLPQ.init false (.pyStr "0.4") (.pyInt 1) (.pyFloat 1) (.pyBool true) =
        .error (.typeError ("Quantile has to be a float. Object of type " ++
          (PyObj.pyStr "0.4").typeName ++ " passed.")) ∧
      DoubleMLPQ.init false (.pyFloat 1) (.pyInt 1) (.pyFloat 1) (.pyBool true) =
        .error (.valueError ("Quantile has be between 0 or 1. Quantile " ++
          toString (1 : Rat) ++ " passed.")) ∧
      DoubleMLPQ.init false (.pyFloat (1/2)) (.pyStr "1") (.pyFloat 1) (.pyBool true) =
        .error (.typeError ("Treatment indicator has to be an integer. " ++
          "Object of type " ++ (PyObj.pyStr "1").typeName ++ " passed.")) ∧
      DoubleMLPQ.init false (.pyFloat (1/2)) (.pyInt 2) (.pyFloat 1) (.pyBool true) =
        .error (.valueError ("Treatment indicator has be either 0 or 1. " ++
          "Treatment indicator " ++ toString (2 : Int) ++ " passed.")) ∧
      DoubleMLPQ.init false (.pyFloat (1/2)) (.pyInt 1) (.pyStr "0.1") (.pyBool true) =
        .error (.typeError ("Bandwidth has to be a float. Object of type " ++
          (PyObj.pyStr "0.1").typeName ++ " passed.")) ∧
      DoubleMLPQ.init false (.pyFloat (1/2)) (.pyInt 1) (.pyFloat (-(1/10)))
          (.pyBool true) =
        .error (.valueError ("Bandwidth has be positive. Bandwidth " ++
          toString (-(1/10) : Rat) ++ " passed.")) ∧
      DoubleMLPQ.init false (.pyFloat (1/2)) (.pyInt 1) (.pyFloat 1) (.pyInt 1) =
        .error (.typeError ("Normalization indicator has to be boolean. " ++
          "Object of type " ++ (PyObj.pyInt 1).typeName ++ " passed.")) :=
  ⟨pq_eager_param_validation.1 (.pyStr "0.4") (.pyInt 1) (.pyFloat 1) (.pyBool true) rfl,
    pq_eager_param_validation.2.1 1 (.pyInt 1) (.pyFloat 1) (.pyBool true)
      (Or.inr le_rfl),
    pq_eager_param_validation.2.2.1 (1/2) (.pyStr "1") (.pyFloat 1) (.pyBool true)
      (by norm_num) (by norm_num) rfl,
    pq_eager_param_validation.2.2.2.1 (1/2) 2 (.pyFloat 1) (.pyBool true)
      (by norm_num) (by norm_num) (by decide) (by decide),
    pq_eager_param_validation.2.2.2.2.1 (1/2) 1 (.pyStr "0.1") (.pyBool true)
      (by norm_num) (by norm_num) (Or.inr rfl) rfl,
    pq_eager_param_validation.2.2.2.2.2.1 (1/2) 1 (-(1/10)) (.pyBool true)
      (by norm_num) (by norm_num) (Or.inr rfl) (by norm_num),
    pq_eager_param_validation.2.2.2.2.2.2 (1/2) 1 1 (.pyInt 1)
      (by norm_num) (by norm_num) (Or.inr rfl) (by norm_num) rfl⟩

/-- `digitVal` inverts `Nat.digitChar` on decimal digits. -/
theorem digitVal_digitChar : ∀ m, m < 10 → digitVal (Nat.digitChar m) = m := by decide

/-- Parsing the digit list produced by `Nat.toDigitsCore` (with enough
fuel) recovers the number: the accumulated digits prepend to `l`, so the
left fold starts from `n`. -/
theorem toDigitsCore_parse :
    ∀ (f n : Nat) (l : List Char), n < 10 ^ f →
      (Nat.toDigitsCore 10 f n l).foldl (fun a c => 10 * a + digitVal c) 0 =
        l.foldl (fun a c => 10 * a + digitVal c) n := by
  intro f
  induction f with
  | zero =>
      intro n l hn
      have hn0 : n = 0 := by simpa using Nat.lt_one_iff.mp (by simpa using hn)
      subst hn0
      rfl
  | succ f ih =>
      intro n l hn
      show (if n / 10 = 0 then Nat.digitChar (n % 10) :: l
          else Nat.toDigitsCore 10 f (n / 10) (Nat.digitChar (n % 10) :: l)).foldl
            (fun a c => 10 * a + digitVal c) 0 =
          l.foldl (fun a c => 10 * a + digitVal c) n
      by_cases hdiv : n / 10 = 0
      · rw [if_pos hdiv]
        have hlt : n < 10 := by omega
        have hmod : n % 10 = n := Nat.mod_eq_of_lt hlt
        simp only [List.foldl_cons]
        rw [hmod, digitVal_digitChar n hlt]
        simp
      · rw [if_neg hdiv]
        have hdl : n / 10 < 10 ^ f := by
          have h10 : (10 : Nat) ^ (f + 1) = 10 ^ f * 10 := by
            rw [Nat.pow_succ]
          exact Nat.div_lt_of_lt_mul (by omega)
        rw [ih (n / 10) (Nat.digitChar (n % 10) :: l) hdl]
        simp only [List.foldl_cons,
          digitVal_digitChar (n % 10) (Nat.mod_lt n (by omega))]
        rw [Nat.div_add_mod]

/-- Parsing back the decimal representation recovers the number. -/
theorem parseNatList_repr (n : Nat) : parseNatList (Nat.repr n).data = n := by
  have hb : n < 10 ^ (n + 1) :=
    Nat.lt_of_lt_of_le (Nat.lt_pow_self (by omega) n)
      (Nat.pow_le_pow_right (by omega) (Nat.le_succ n))
  have h := toDigitsCore_parse (n + 1) n [] hb
  simpa [parseNatList, Nat.repr, Nat.toDigits, List.asString] using h

/-- `Nat.repr` is injective. -/
theorem natRepr_injective : Function.Injective Nat.repr := by
  intro a b h
  have ha := parseNatList_repr a
  rw [h, parseNatList_repr b] at ha
  exact ha.symm

/-- Prefixed decimal column names (`X1`, `X2`, ...) are injective in the
index. -/
theorem prefixed_name_injective (pre : String) :
    Function.Injective (fun i : Nat => pre ++ Nat.repr (i + 1)) := by
  intro a b h
  have hd := congrArg String.data h
  rw [String.data_append, String.data_append] at hd
  have hc := List.append_cancel_left hd
  have pa := parseNatList_repr (a + 1)
  have hrepr : Nat.repr (a + 1) = Nat.repr (b + 1) := by
    cases hra : Nat.repr (a + 1) with
    | mk la =>
      cases hrb : Nat.repr (b + 1) with
      | mk lb =>
        rw [hra, hrb] at hc
        simp only at hc
        rw [hc]
  have := natRepr_injective hrepr
  omega

/-- The generated name lists are duplicate-free. -/
theorem prefixed_names_nodup (pre : String) (p : Nat) :
    ((List.range p).map (fun i => pre ++ Nat.repr (i + 1))).Nodup :=
  (List.nodup_range p).map (prefixed_name_injective pre)

/-- Strings with different first characters differ. -/
theorem ne_of_head_char {s t : String} {c1 c2 : Char}
    (hs : s.data.head? = some c1) (ht : t.data.head? = some c2)
    (hne : c1 ≠ c2) : s ≠ t := by
  intro he
  rw [he, ht] at hs
  exact hne (Option.some.inj hs).symm

/-- The first character of a prefixed decimal name is the first character
of the prefix. -/
theorem head_char_append {c : Char} {r : String} (s : String)
    (hs : s.data = [c]) : (s ++ r).data.head? = some c := by
  rw [String.data_append, hs]
  rfl

/-- Label lookup hits the head column when the name matches. -/
theorem getCol_cons_self {name : String} {v : List Int}
    {rest : List (String × List Int)} :
    DataFrame.getCol ⟨(name, v) :: rest⟩ name = v := by
  unfold DataFrame.getCol
  rw [List.find?_cons_of_pos _ (by simp)]

/-- Label lookup skips a head column with a different name. -/
theorem getCol_cons_ne {p : String × List Int} {rest : List (String × List Int)}
    {c : String} (h : p.1 ≠ c) :
    DataFrame.getCol ⟨p :: rest⟩ c = DataFrame.getCol ⟨rest⟩ c := by
  unfold DataFrame.getCol
  rw [List.find?_cons_of_neg]
  simpa using h

/-- Label lookup skips a whole block of columns with different names. -/
theorem getCol_append_of_not_mem {l1 l2 : List (String × List Int)} {c : String}
    (h : c ∉ l1.map Prod.fst) :
    DataFrame.getCol ⟨l1 ++ l2⟩ c = DataFrame.getCol ⟨l2⟩ c := by
  induction l1 with
  | nil => rfl
  | cons p l1 ih =>
      simp only [List.map_cons, List.mem_cons, not_or] at h
      rw [List.cons_append, getCol_cons_ne (fun he => h.1 he.symm), ih h.2]

/-- Selecting duplicate-free names out of the block that binds them (with
matching arity) returns exactly the bound value columns, independent of
what follows. -/
theorem select_zip_values (names : List String) (vals : List (List Int))
    (rest : List (String × List Int)) (hnd : names.Nodup)
    (hlen : names.length = vals.length) :
    names.map (fun c => DataFrame.getCol ⟨names.zip vals ++ rest⟩ c) = vals := by
  induction names generalizing vals with
  | nil =>
      cases vals with
      | nil => rfl
      | cons v vs => simp at hlen
  | cons nm ns ih =>
      cases vals with
      | nil => simp at hlen
      | cons v vs =>
          simp only [List.zip_cons_cons, List.cons_append, List.map_cons]
          have hnd' := List.nodup_cons.mp hnd
          congr 1
          · exact getCol_cons_self
          · have hskip : ∀ c ∈ ns,
                DataFrame.getCol ⟨(nm, v) :: (ns.zip vs ++ rest)⟩ c =
                  DataFrame.getCol ⟨ns.zip vs ++ rest⟩ c := by
              intro c hc
              refine getCol_cons_ne ?_
              intro he
              have hnmc : nm = c := he
              subst hnmc
              exact hnd'.1 hc
            rw [List.map_congr_left hskip]
            exact ih vs hnd'.2 (by simpa using hlen)

/-- Reduction of a successful bind. -/
theorem except_bind_ok_eq {α β ε : Type} (a : α) (f : α → Except ε β) :
    ((Except.ok a : Except ε α) >>= f) = f a := rfl

/-- `__init__` on arguments that pass every check: the constructed object,
explicitly. -/
theorem init_on_passing_args (F : DataFrame) (xn : List String) (dh : String)
    (dt : List String) (zcols : Option (List String)) (zobj : PyObj)
    (hcy : F.columns.contains "y" = true)
    (hcd : (dh :: dt).all (fun c => F.columns.contains c) = true)
    (hcx : xn.all (fun c => F.columns.contains c) = true)
    (hz : z_cols_check F.columns zobj = .ok zcols) :
    DoubleMLData.init F (.pyStr "y") (.pyList (dh :: dt)) (.pyList xn) zobj true =
      .ok { data := F, y_col := "y", d_cols := (dh :: dt), x_cols := xn,
            z_cols := zcols, use_other_treat_as_covariate := true,
            _y := F.getCol "y", _z := zcols.map (fun zc => F.select zc),
            _d := F.getCol dh,
            _X := F.select (xd_list_of xn (dh :: dt) true dh) } := by
  have hy : y_col_check F.columns (.pyStr "y") = .ok "y" := by
    simp only [y_col_check]
    rw [if_pos hcy]
  have hd : d_cols_check F.columns (.pyList (dh :: dt)) = .ok (dh :: dt) := by
    simp only [d_cols_check]
    rw [if_pos hcd]
  have hx : x_cols_resolve F "y" (dh :: dt) zcols (.pyList xn) = .ok xn := by
    simp only [x_cols_resolve, x_cols_check]
    rw [if_pos hcx]
  have hcont : (dh :: dt).contains dh = true := by simp
  have hsd : set_x_d_slices F xn (dh :: dt) true dh =
      .ok (F.getCol dh, F.select (xd_list_of xn (dh :: dt) true dh)) := by
    unfold set_x_d_slices
    rw [if_pos hcont]
  simp only [DoubleMLData.init, hy, hd, hz, hx, hsd, d_first, pure, Except.pure,
    except_bind_ok_eq]

/-- The value columns of a slice are the lookups of the requested
labels. -/
theorem select_values (df : DataFrame) (cs : List String) :
    (df.select cs).cols.map Prod.snd = cs.map (fun c => df.getCol c) := by
  induction cs with
  | nil => rfl
  | cons c cs ih => simp_all [DataFrame.select]

/-- Core of the `from_arrays` round trip, for a treatment-name list with
known head and a generic instrument block: the constructor succeeds and
the stored slices recover the stacked arrays. -/
theorem from_arrays_core (X : List (List Int)) (y : List Int) (d0 : List Int)
    (ds : List (List Int)) (dh : String) (dt : List String)
    (ztail : List (String × List Int)) (zcols : Option (List String))
    (zobj : PyObj) (F : DataFrame)
    (hF : F = ⟨((List.range X.length).map (fun i => "X" ++ Nat.repr (i + 1))).zip X ++
      ([("y", y)] ++ ((dh :: dt).zip (d0 :: ds) ++ ztail))⟩)
    (hX : ∀ c ∈ X, c.length = y.length)
    (hdh : dh.data.head? = some 'd')
    (hdnlen : dt.length = ds.length)
    (hz : z_cols_check F.columns zobj = .ok zcols) :
    DoubleMLData.init F (.pyStr "y") (.pyList (dh :: dt))
        (.pyList ((List.range X.length).map (fun i => "X" ++ Nat.repr (i + 1))))
        zobj true =
      .ok { data := F, y_col := "y", d_cols := (dh :: dt),
            x_cols := (List.range X.length).map (fun i => "X" ++ Nat.repr (i + 1)),
            z_cols := zcols, use_other_treat_as_covariate := true,
            _y := F.getCol "y", _z := zcols.map (fun zc => F.select zc),
            _d := F.getCol dh,
            _X := F.select (xd_list_of
              ((List.range X.length).map (fun i => "X" ++ Nat.repr (i + 1)))
              (dh :: dt) true dh) } ∧
      F.getCol "y" = y ∧
      F.getCol dh = d0 ∧
      F.nRows = y.length ∧
      (dh :: dt = ["d"] →
        (F.select (xd_list_of
          ((List.range X.length).map (fun i => "X" ++ Nat.repr (i + 1)))
          (dh :: dt) true dh)).cols.map Prod.snd = X) := by
  subst hF
  have hxlen : ((List.range X.length).map (fun i => "X" ++ Nat.repr (i + 1))).length
      = X.length := by simp
  have hxnd : ((List.range X.length).map (fun i => "X" ++ Nat.repr (i + 1))).Nodup :=
    prefixed_names_nodup "X" X.length
  have hGx : ∀ s ∈ (List.range X.length).map (fun i => "X" ++ Nat.repr (i + 1)),
      s.data.head? = some 'X' := by
    intro s hs
    simp only [List.mem_map, List.mem_range] at hs
    obtain ⟨i, _, rfl⟩ := hs
    exact head_char_append "X" rfl
  have hyX : "y" ∉ (List.range X.length).map (fun i => "X" ++ Nat.repr (i + 1)) := by
    intro hmem
    have h1 := hGx _ hmem
    simp at h1
  have hdhX : dh ∉ (List.range X.length).map (fun i => "X" ++ Nat.repr (i + 1)) := by
    intro hmem
    have h1 := hGx _ hmem
    rw [hdh] at h1
    exact absurd (Option.some.inj h1) (by decide)
  have hdhy : ("y", y).1 ≠ dh := by
    intro he
    have h1 : dh.data.head? = some 'y' := by rw [← he]; rfl
    rw [hdh] at h1
    exact absurd (Option.some.inj h1) (by decide)
  have hmapfstX : (((List.range X.length).map
      (fun i => "X" ++ Nat.repr (i + 1))).zip X).map Prod.fst =
      (List.range X.length).map (fun i => "X" ++ Nat.repr (i + 1)) :=
    List.map_fst_zip _ _ (le_of_eq hxlen)
  have hmapfstD : ((dh :: dt).zip (d0 :: ds)).map Prod.fst = dh :: dt :=
    List.map_fst_zip _ _ (by simp [hdnlen])
  have hcolsF : DataFrame.columns ⟨((List.range X.length).map
      (fun i => "X" ++ Nat.repr (i + 1))).zip X ++
        ([("y", y)] ++ ((dh :: dt).zip (d0 :: ds) ++ ztail))⟩ =
      ((List.range X.length).map (fun i => "X" ++ Nat.repr (i + 1))) ++
        ("y" :: ((dh :: dt) ++ ztail.map Prod.fst)) := by
    show (((List.range X.length).map (fun i => "X" ++ Nat.repr (i + 1))).zip X ++
        ([("y", y)] ++ ((dh :: dt).zip (d0 :: ds) ++ ztail))).map Prod.fst = _
    rw [List.map_append, List.map_append, List.map_append, hmapfstX, hmapfstD]
    simp
  have hcy : (DataFrame.columns ⟨((List.range X.length).map
      (fun i => "X" ++ Nat.repr (i + 1))).zip X ++
        ([("y", y)] ++ ((dh :: dt).zip (d0 :: ds) ++ ztail))⟩).contains "y" = true := by
    rw [hcolsF]; simp
  have hcd : ((dh :: dt).all (fun c => (DataFrame.columns ⟨((List.range X.length).map
      (fun i => "X" ++ Nat.repr (i + 1))).zip X ++
        ([("y", y)] ++ ((dh :: dt).zip (d0 :: ds) ++ ztail))⟩).contains c)) = true := by
    refine List.all_eq_true.2 (fun c hc => ?_)
    rw [hcolsF]
    have hmem : c ∈ ((List.range X.length).map (fun i => "X" ++ Nat.repr (i + 1))) ++
        ("y" :: ((dh :: dt) ++ ztail.map Prod.fst)) := by
      simp only [List.mem_append, List.mem_cons] at hc ⊢
      tauto
    simpa using hmem
  have hcx : (((List.range X.length).map (fun i => "X" ++ Nat.repr (i + 1))).all
      (fun c => (DataFrame.columns ⟨((List.range X.length).map
        (fun i => "X" ++ Nat.repr (i + 1))).zip X ++
          ([("y", y)] ++ ((dh :: dt).zip (d0 :: ds) ++ ztail))⟩).contains c)) = true := by
    refine List.all_eq_true.2 (fun c hc => ?_)
    rw [hcolsF]
    have hmem : c ∈ ((List.range X.length).map (fun i => "X" ++ Nat.repr (i + 1))) ++
        ("y" :: ((dh :: dt) ++ ztail.map Prod.fst)) :=
      List.mem_append_left _ hc
    simpa using hmem
  refine ⟨init_on_passing_args _ _ dh dt zcols zobj hcy hcd hcx hz, ?_, ?_, ?_, ?_⟩
  · rw [getCol_append_of_not_mem (by rw [hmapfstX]; exact hyX),
      List.singleton_append]
    exact getCol_cons_self
  · rw [getCol_append_of_not_mem (by rw [hmapfstX]; exact hdhX),
      List.singleton_append, getCol_cons_ne hdhy, List.zip_cons_cons,
      List.cons_append]
    exact getCol_cons_self
  · cases X with
    | nil => simp [DataFrame.nRows]
    | cons c Xr =>
        have hne : (List.range (c :: Xr).length).map
            (fun i => "X" ++ Nat.repr (i + 1)) ≠ [] := by
          intro hnil
          have := congrArg List.length hnil
          simp at this
        obtain ⟨x0, xr, hx0⟩ := List.exists_cons_of_ne_nil hne
        rw [hx0, List.zip_cons_cons, List.cons_append]
        show c.length = y.length
        exact hX c (by simp)
  · intro hdn1
    injection hdn1 with h1 h2
    subst h1
    subst h2
    have herase : xd_list_of
        ((List.range X.length).map (fun i => "X" ++ Nat.repr (i + 1))) ["d"] true "d" =
        (List.range X.length).map (fun i => "X" ++ Nat.repr (i + 1)) := by
      unfold xd_list_of
      rw [if_pos rfl, List.erase_append_right _ hdhX]
      simp
    rw [herase, select_values]
    exact select_zip_values _ X _ hxnd hxlen

/-- Unfolding of `from_arrays` without instruments. -/
theorem from_arrays_none_eq (X : List (List Int)) (y : List Int)
    (d : List (List Int)) (u : Bool) :
    DoubleMLData.from_arrays X y d none u =
      DoubleMLData.init
        ⟨(((List.range X.length).map (fun i => "X" ++ Nat.repr (i + 1))).zip X) ++
          [("y", y)] ++
          ((if d.length == 1 then ["d"]
            else (List.range d.length).map (fun i => "d" ++ Nat.repr (i + 1))).zip d)⟩
        (.pyStr "y")
        (.pyList (if d.length == 1 then ["d"]
          else (List.range d.length).map (fun i => "d" ++ Nat.repr (i + 1))))
        (.pyList ((List.range X.length).map (fun i => "X" ++ Nat.repr (i + 1))))
        .pyNone u := rfl

/-- Unfolding of `from_arrays` with instruments. -/
theorem from_arrays_some_eq (X : List (List Int)) (y : List Int)
    (d zc : List (List Int)) (u : Bool) :
    DoubleMLData.from_arrays X y d (some zc) u =
      DoubleMLData.init
        ⟨(((List.range X.length).map (fun i => "X" ++ Nat.repr (i + 1))).zip X) ++
          [("y", y)] ++
          ((if d.length == 1 then ["d"]
            else (List.range d.length).map (fun i => "d" ++ Nat.repr (i + 1))).zip d) ++
          ((if zc.length == 1 then ["z"]
            else (List.range zc.length).map (fun i => "z" ++ Nat.repr (i + 1))).zip zc)⟩
        (.pyStr "y")
        (.pyList (if d.length == 1 then ["d"]
          else (List.range d.length).map (fun i => "d" ++ Nat.repr (i + 1))))
        (.pyList ((List.range X.length).map (fun i => "X" ++ Nat.repr (i + 1))))
        (.pyList (if zc.length == 1 then ["z"]
          else (List.range zc.length).map (fun i => "z" ++ Nat.repr (i + 1)))) u := rfl

/-- C10: `from_arrays` round-trips the input arrays: for column arrays of
matching length and a nonempty treatment block, construction succeeds and
the resulting object has `n_obs = n`, its `y` accessor returns the
outcome array, its `d` accessor the first treatment column, its `x`
accessor the covariate array when the treatment is single-column, and
the generated column names are `X1..Xp`, `y`, `d` (or `d1, d2, ...`), and
`z` (or `z1, ...`). -/
theorem from_arrays_roundtrip (X : List (List Int)) (y : List Int)
    (d : List (List Int)) (z : Option (List (List Int)))
    (hX : ∀ c ∈ X, c.length = y.length) (hd0 : d ≠ []) :
    ∃ o, DoubleMLData.from_arrays X y d z true = .ok o ∧
      o.n_obs = y.length ∧
      o.y = y ∧
      o.d = d.headI ∧
      (d.length = 1 → o.x = X) ∧
      o.y_col = "y" ∧
      o.x_cols = (List.range X.length).map (fun i => "X" ++ Nat.repr (i + 1)) ∧
      o.d_cols = (if d.length == 1 then ["d"]
        else (List.range d.length).map (fun i => "d" ++ Nat.repr (i + 1))) ∧
      o.z_cols = (match z with
        | none => none
        | some zc => if zc.length == 1 then some ["z"]
            else some ((List.range zc.length).map
              (fun i => "z" ++ Nat.repr (i + 1)))) := by
  obtain ⟨d0, ds, rfl⟩ : ∃ d0 ds, d = d0 :: ds := by
    cases d with
    | nil => exact absurd rfl hd0
    | cons a l => exact ⟨a, l, rfl⟩
  obtain ⟨dh, dt, hdneq, hdh, hdtlen⟩ :
      ∃ dh dt,
        (if (d0 :: ds).length == 1 then ["d"]
          else (List.range (d0 :: ds).length).map
            (fun i => "d" ++ Nat.repr (i + 1))) = dh :: dt ∧
        dh.data.head? = some 'd' ∧ dt.length = ds.length := by
    cases ds with
    | nil => exact ⟨"d", [], rfl, rfl, rfl⟩
    | cons e es =>
        refine ⟨"d" ++ Nat.repr 1,
          (((List.range (e :: es).length).map Nat.succ).map
            (fun i => "d" ++ Nat.repr (i + 1))), ?_, head_char_append "d" rfl, ?_⟩
        · rw [if_neg (by simp), List.length_cons, List.range_succ_eq_map]
          rfl
        · simp
  have hxhead : ∀ _ : (d0 :: ds).length = 1, dh :: dt = ["d"] := by
    intro hl
    have hds : ds = [] := by
      cases ds with
      | nil => rfl
      | cons e es => simp at hl
    subst hds
    exact hdneq.symm
  cases z with
  | none =>
      rw [from_arrays_none_eq, hdneq,
        show (dh :: dt).zip (d0 :: ds) =
          (dh :: dt).zip (d0 :: ds) ++ ([] : List (String × List Int)) from
          (List.append_nil _).symm, List.append_assoc]
      have hz : z_cols_check
          (DataFrame.columns ⟨((List.range X.length).map
            (fun i => "X" ++ Nat.repr (i + 1))).zip X ++
            ([("y", y)] ++ ((dh :: dt).zip (d0 :: ds) ++ []))⟩) .pyNone =
          .ok none := rfl
      obtain ⟨hinit, hgy, hgd, hrows, hxfact⟩ :=
        from_arrays_core X y d0 ds dh dt [] none .pyNone _ rfl hX hdh hdtlen hz
      exact ⟨_, hinit, hrows, hgy, hgd, fun hl => hxfact (hxhead hl), rfl, rfl,
        rfl, rfl⟩
  | some zc =>
      by_cases hb : (zc.length == 1) = true
      · rw [from_arrays_some_eq]
        simp only [if_pos hb]
        rw [hdneq, List.append_assoc, List.append_assoc]
        have hzlen : (["z"] : List String).length ≤ zc.length := by
          have hcl : zc.length = 1 := by simpa using hb
          simp [hcl]
        have hzmem : ∀ c ∈ (["z"] : List String),
            c ∈ DataFrame.columns ⟨((List.range X.length).map
              (fun i => "X" ++ Nat.repr (i + 1))).zip X ++
              ([("y", y)] ++ ((dh :: dt).zip (d0 :: ds) ++ ["z"].zip zc))⟩ := by
          intro c hc
          show c ∈ (((List.range X.length).map
            (fun i => "X" ++ Nat.repr (i + 1))).zip X ++
            ([("y", y)] ++ ((dh :: dt).zip (d0 :: ds) ++ ["z"].zip zc))).map Prod.fst
          rw [List.map_append, List.map_append, List.map_append,
            List.map_fst_zip _ _ hzlen]
          simp only [List.mem_append]
          exact Or.inr (Or.inr (Or.inr hc))
        have hz : z_cols_check
            (DataFrame.columns ⟨((List.range X.length).map
              (fun i => "X" ++ Nat.repr (i + 1))).zip X ++
              ([("y", y)] ++ ((dh :: dt).zip (d0 :: ds) ++ ["z"].zip zc))⟩)
            (.pyList ["z"]) = .ok (some ["z"]) := by
          simp only [z_cols_check]
          rw [if_pos (List.all_eq_true.2 (fun c hc => by simpa using hzmem c hc))]
        obtain ⟨hinit, hgy, hgd, hrows, hxfact⟩ :=
          from_arrays_core X y d0 ds dh dt (["z"].zip zc) (some ["z"])
            (.pyList ["z"]) _ rfl hX hdh hdtlen hz
        exact ⟨_, hinit, hrows, hgy, hgd, fun hl => hxfact (hxhead hl), rfl, rfl,
          rfl, rfl⟩
      · rw [from_arrays_some_eq]
        simp only [if_neg hb]
        rw [hdneq, List.append_assoc, List.append_assoc]
        have hzlen : ((List.range zc.length).map
            (fun i => "z" ++ Nat.repr (i + 1))).length ≤ zc.length := by simp
        have hzmem : ∀ c ∈ (List.range zc.length).map
            (fun i => "z" ++ Nat.repr (i + 1)),
            c ∈ DataFrame.columns ⟨((List.range X.length).map
              (fun i => "X" ++ Nat.repr (i + 1))).zip X ++
              ([("y", y)] ++ ((dh :: dt).zip (d0 :: ds) ++
                ((List.range zc.length).map
                  (fun i => "z" ++ Nat.repr (i + 1))).zip zc))⟩ := by
          intro c hc
          show c ∈ (((List.range X.length).map
            (fun i => "X" ++ Nat.repr (i + 1))).zip X ++
            ([("y", y)] ++ ((dh :: dt).zip (d0 :: ds) ++
              ((List.range zc.length).map
                (fun i => "z" ++ Nat.repr (i + 1))).zip zc))).map Prod.fst
          rw [List.map_append, List.map_append, List.map_append,
            List.map_fst_zip _ _ hzlen]
          simp only [List.mem_append]
          exact Or.inr (Or.inr (Or.inr hc))
        have hz : z_cols_check
            (DataFrame.columns ⟨((List.range X.length).map
              (fun i => "X" ++ Nat.repr (i + 1))).zip X ++
              ([("y", y)] ++ ((dh :: dt).zip (d0 :: ds) ++
                ((List.range zc.length).map
                  (fun i => "z" ++ Nat.repr (i + 1))).zip zc))⟩)
            (.pyList ((List.range zc.length).map
              (fun i => "z" ++ Nat.repr (i + 1)))) =
            .ok (some ((List.range zc.length).map
              (fun i => "z" ++ Nat.repr (i + 1)))) := by
          simp only [z_cols_check]
          rw [if_pos (List.all_eq_true.2 (fun c hc => by simpa using hzmem c hc))]
        obtain ⟨hinit, hgy, hgd, hrows, hxfact⟩ :=
          from_arrays_core X y d0 ds dh dt
            (((List.range zc.length).map (fun i => "z" ++ Nat.repr (i + 1))).zip zc)
            (some ((List.range zc.length).map (fun i => "z" ++ Nat.repr (i + 1))))
            (.pyList ((List.range zc.length).map (fun i => "z" ++ Nat.repr (i + 1))))
            _ rfl hX hdh hdtlen hz
        exact ⟨_, hinit, hrows, hgy, hgd, fun hl => hxfact (hxhead hl), rfl, rfl,
          rfl, rfl⟩

/-- C10 (witness): the round trip applied to a concrete 2x2 covariate
array, outcome vector, and single treatment column. -/
theorem from_arrays_roundtrip_w :
    ∃ o, DoubleMLData.from_arrays [[1, 2], [3, 4]] [5, 6] [[7, 8]] none true =
        .ok o ∧
      o.n_obs = ([5, 6] : List Int).length ∧
      o.y = [5, 6] ∧
      o.d = ([[7, 8]] : List (List Int)).headI ∧
      (([[7, 8]] : List (List Int)).length = 1 → o.x = [[1, 2], [3, 4]]) ∧
      o.y_col = "y" ∧
      o.x_cols = (List.range ([[1, 2], [3, 4]] : List (List Int)).length).map
        (fun i => "X" ++ Nat.repr (i + 1)) ∧
      o.d_cols = (if ([[7, 8]] : List (List Int)).length == 1 then ["d"]
        else (List.range ([[7, 8]] : List (List Int)).length).map
          (fun i => "d" ++ Nat.repr (i + 1))) ∧
      o.z_cols = (match (none : Option (List (List Int))) with
        | none => none
        | some zc => if zc.length == 1 then some ["z"]
            else some ((List.range zc.length).map
              (fun i => "z" ++ Nat.repr (i + 1)))) :=
  from_arrays_roundtrip [[1, 2], [3, 4]] [5, 6] [[7, 8]] none (by decide) (by decide)
